import Mathlib

/-!
Shallow embedding of the ECHO-Backend gateway/backend sources
(`src/gateway/gateway.js`, `src/backend/echo.js`, `src/backend/echo (1).js`).

The repository holds several JavaScript variants of the same
authenticating reverse-proxy gateway:
* gateway.js contains two variants, referred to below as V1
  (lines 1-336, "Echo Gateway - PRODUCTION") and V2
  (lines 337-755, "Echo Gateway - OPTIMIZED v1.4");
* echo.js is the full backend with the WebSocket chat relay;
* echo (1).js is a reduced gateway variant.

Each definition below is translated from one of those places; its doc
comment names the file and line range it embeds.  JavaScript values that
the code tests for truthiness are modelled as `Option JsValue`, `undefined`
being `none`; JSON response bodies are modelled by the `Json` type.
-/

set_option autoImplicit false

namespace Echo

/-- A primitive JavaScript value as it appears in decoded JWT claims and
chat messages: a string or a number. -/
inductive JsValue where
  | str (s : String)
  | num (n : Int)
deriving DecidableEq, Repr

/-- JavaScript truthiness of a primitive value: the empty string and the
number 0 are falsy; every other string or number is truthy. -/
def JsValue.truthy : JsValue → Bool
  | .str s => !s.isEmpty
  | .num n => n != 0

/-- JavaScript `v.toString()` for a primitive value (used by the
connection registry: `userId.toString()`, `receiverId.toString()`). -/
def JsValue.toStr : JsValue → String
  | .str s => s
  | .num n => toString n

/-- Truthiness of a possibly-undefined JavaScript value
(`undefined` is falsy). -/
def jsTruthy : Option JsValue → Bool
  | none => false
  | some v => v.truthy

/-- JavaScript `a || b` on possibly-undefined primitive values: returns
`a` if `a` is truthy, otherwise `b` (even when `b` is falsy). -/
def jsOr (a b : Option JsValue) : Option JsValue :=
  if jsTruthy a then a else b

/-- The first truthy value of a list of possibly-undefined values, `none`
if there is no truthy value.  This is the spec's "first non-empty field in
the fixed priority order"; the code's `a || b || c` chains are compared
against it. -/
def firstTruthy : List (Option JsValue) → Option JsValue
  | [] => none
  | x :: xs => if jsTruthy x then x else firstTruthy xs

/-- A JSON value, used for HTTP response bodies and WebSocket frames. -/
inductive Json where
  | null
  | bool (b : Bool)
  | num (n : Int)
  | str (s : String)
  | arr (elems : List Json)
  | obj (fields : List (String × Json))

/-- Embed a primitive JavaScript value into JSON. -/
def jsValueToJson : JsValue → Json
  | .str s => .str s
  | .num n => .num n

/-- Look a key up in a JSON object's field list (first match wins, as in
a JavaScript object literal read). -/
def lookupField : List (String × Json) → String → Option Json
  | [], _ => none
  | (k, v) :: fs, key => if k == key then some v else lookupField fs key

/-- `j.getField k`: the value of field `k` when `j` is an object. -/
def Json.getField (j : Json) (key : String) : Option Json :=
  match j with
  | .obj fields => lookupField fields key
  | _ => none

/-- An HTTP response as the gateway sends it: a status code and a JSON
body (`res.status(s).json(body)`). -/
structure HttpResponse where
  status : Nat
  body : Json

/-- JavaScript `s.startsWith(p)` (modelled character-by-character). -/
def strStartsWith (s p : String) : Bool :=
  s.data.take p.data.length == p.data

/-- JavaScript `s.toLowerCase()` (modelled character-by-character with
`Char.toLower`; the paths the gateway compares are ASCII). -/
def jsToLower (s : String) : String :=
  String.mk (s.data.map Char.toLower)

/-- JavaScript `authHeader.split(' ')[1]` — the token part of a
`Bearer <token>` header (empty string when there is no second field). -/
def headerToken (h : String) : String :=
  (h.splitOn " ").getD 1 ""

-- ====================
-- Startup configuration (JWT secret policy)
-- ====================

/-- The outcome of process startup: either an early `process.exit` or a
started process holding the JWT secret it will verify tokens with. -/
inductive StartupResult where
  | exited (code : Nat)
  | started (jwtSecret : String)
deriving DecidableEq, Repr

/-- gateway.js lines 19-24 (V1), lines 355-360 (V2) and echo (1).js
lines 19-24: `const JWT_SECRET = process.env.JWT_SECRET;
if (!JWT_SECRET) { console.error(...); process.exit(1); }`.
An absent or empty (falsy) environment value aborts startup with exit
code 1; otherwise the process starts with exactly the supplied secret. -/
def gatewayStartup (envSecret : Option String) : StartupResult :=
  match envSecret with
  | none => .exited 1
  | some s => if s.isEmpty then .exited 1 else .started s

/-- The hardcoded default secret in echo.js line 18. -/
def echoDefaultSecret : String := "echo-secret-key-change-in-production"

/-- echo.js line 18: `const JWT_SECRET = process.env.JWT_SECRET ||
'echo-secret-key-change-in-production';` — the JavaScript `||` falls back
to the hardcoded default when the environment value is absent or empty. -/
def echoJwtSecret (envSecret : Option String) : String :=
  match envSecret with
  | none => echoDefaultSecret
  | some s => if s.isEmpty then echoDefaultSecret else s

/-- echo.js startup: there is no secret check, so the process always
starts, with `echoJwtSecret` as its verification secret. -/
def echoStartup (envSecret : Option String) : StartupResult :=
  .started (echoJwtSecret envSecret)

-- ====================
-- Token verification and the authenticate middlewares
-- ====================

/-- The decoded claim set of a JWT, with the recognized user-identifier
fields (`userId`, `id`, `user_id`) and the optional profile fields the
middlewares copy (`email`, `role`, `schoolId`, `school_id`).  A field the
token does not carry is `none` (JavaScript `undefined`). -/
structure TokenClaims where
  userId : Option JsValue
  id : Option JsValue
  user_id : Option JsValue
  email : Option JsValue
  role : Option JsValue
  schoolId : Option JsValue
  school_id : Option JsValue
deriving DecidableEq, Repr

/-- The claim set of a token carrying no fields at all. -/
def emptyTokenClaims : TokenClaims :=
  ⟨none, none, none, none, none, none, none⟩

/-- Result of `jwt.verify(token, JWT_SECRET)`: the decoded claims on
success, or the thrown error classified as the middlewares classify it
(`TokenExpiredError` versus anything else). -/
inductive VerifyResult where
  | ok (claims : TokenClaims)
  | expired
  | invalid

/-- The `req.user` object the authenticate middlewares attach on
success. -/
structure User where
  id : Option JsValue
  email : Option JsValue
  role : Option JsValue
  schoolId : Option JsValue
deriving DecidableEq, Repr

/-- Outcome of an express middleware: either `next()` was called
(carrying `req.user` when one was set), or a response was sent and the
chain stops. -/
inductive AuthOutcome where
  | proceed (user : Option User)
  | reject (resp : HttpResponse)

/-- Body of the 401 sent when the Authorization header is absent or not
a Bearer header (identical in gateway.js V1/V2 and echo (1).js). -/
def noTokenBody : Json :=
  .obj [("success", .bool false),
        ("error", .str "Access denied. No token provided."),
        ("code", .str "NO_TOKEN")]

/-- The full 401 NO_TOKEN response. -/
def noTokenResponse : HttpResponse := ⟨401, noTokenBody⟩

/-- Body of the 401 sent by gateway.js V1 (and echo (1).js) when a
verified token carries none of the recognized user-identifier fields. -/
def invalidTokenFormatBody : Json :=
  .obj [("success", .bool false),
        ("error", .str "Invalid token format"),
        ("code", .str "INVALID_TOKEN")]

/-- Body of the 401 sent when `jwt.verify` throws `TokenExpiredError`. -/
def tokenExpiredBody : Json :=
  .obj [("success", .bool false),
        ("error", .str "Token expired. Please login again."),
        ("code", .str "TOKEN_EXPIRED")]

/-- Body of the 401 sent when `jwt.verify` throws any other error. -/
def invalidTokenBody : Json :=
  .obj [("success", .bool false),
        ("error", .str "Invalid token."),
        ("code", .str "INVALID_TOKEN")]

/-- The public-path allow-list of gateway.js V1 (line 45) and
echo (1).js (line 43). -/
def publicPathsV1 : List String := ["/auth/login", "/auth/register", "/health", "/"]

/-- gateway.js V1 lines 44-49 / echo (1).js lines 43-46: a request path
(express `req.path`, which never includes the query string) is public
exactly when it is in the allow-list.  The comparison is case-sensitive
exact string match. -/
def isPublicV1 (path : String) : Bool :=
  publicPathsV1.contains path

/-- The public-path allow-list of gateway.js V2 (line 416). -/
def publicPathsV2 : List String := ["/login", "/register", "/health", "/"]

/-- The V2 matching rule on an already-lowercased path: exact match
against the allow-list, or the `/health` subpath prefix rule
(gateway.js line 419). -/
def isPublicLoweredV2 (p : String) : Bool :=
  publicPathsV2.contains p || strStartsWith p "/health"

/-- gateway.js V2 lines 414-420: `const requestPath =
req.path.toLowerCase();` then exact allow-list match or
`requestPath.startsWith('/health')`. -/
def isPublicV2 (path : String) : Bool :=
  isPublicLoweredV2 (jsToLower path)

/-- gateway.js V1 lines 42-94 — also, token for token, echo (1).js
lines 42-91: the `authenticate` middleware.  Public paths skip
authentication; a missing or non-Bearer header is rejected with 401
NO_TOKEN; a verified token whose claims contain none of `userId`, `id`,
`user_id` (all falsy) is rejected with 401 INVALID_TOKEN; otherwise
`req.user` is built with `id: decoded.userId || decoded.id ||
decoded.user_id`.  `verify` stands for `jwt.verify` with the configured
secret. -/
def authenticate (verify : String → VerifyResult) (path : String)
    (authHeader : Option String) : AuthOutcome :=
  if isPublicV1 path then .proceed none
  else
    match authHeader with
    | none => .reject noTokenResponse
    | some h =>
      if strStartsWith h "Bearer " then
        match verify (headerToken h) with
        | .ok d =>
          if !jsTruthy d.userId && !jsTruthy d.id && !jsTruthy d.user_id then
            .reject ⟨401, invalidTokenFormatBody⟩
          else
            .proceed (some ⟨jsOr d.userId (jsOr d.id d.user_id),
                            d.email, d.role, d.schoolId⟩)
        | .expired => .reject ⟨401, tokenExpiredBody⟩
        | .invalid => .reject ⟨401, invalidTokenBody⟩
      else .reject noTokenResponse

/-- gateway.js V2 lines 413-455: the optimized `authenticate`
middleware.  Public paths (case-normalized, with the `/health` prefix
rule) skip authentication; a missing or non-Bearer header is rejected
with 401 NO_TOKEN; any verified token proceeds — there is no check that
a user-identifier field is present — with `id: decoded.user_id ||
decoded.userId || decoded.id` and `schoolId: decoded.school_id ||
decoded.schoolId`. -/
def authenticateV2 (verify : String → VerifyResult) (path : String)
    (authHeader : Option String) : AuthOutcome :=
  if isPublicV2 path then .proceed none
  else
    match authHeader with
    | none => .reject noTokenResponse
    | some h =>
      if strStartsWith h "Bearer " then
        match verify (headerToken h) with
        | .ok d =>
          .proceed (some ⟨jsOr d.user_id (jsOr d.userId d.id),
                          d.email, d.role, jsOr d.school_id d.schoolId⟩)
        | .expired => .reject ⟨401, tokenExpiredBody⟩
        | .invalid => .reject ⟨401, invalidTokenBody⟩
      else .reject noTokenResponse

/-- A request's Authorization header fails the Bearer check: it is
absent, or does not start with `"Bearer "`. -/
def badBearerHeader : Option String → Bool
  | none => true
  | some h => !strStartsWith h "Bearer "

-- ====================
-- Proxy forwarder
-- ====================

/-- How the single outbound forwarding attempt to the upstream ends.
Because both forwarders pass `validateStatus: () => true`, an upstream
response with ANY status code returns normally (`responded`); a timeout
surfaces as an axios error with `code === 'ECONNABORTED'` (`timeout`);
an error carrying `error.response` (`errorResponse`) and any other
transport failure (`transportError`) are the remaining `catch` cases. -/
inductive UpstreamOutcome where
  | responded (status : Nat) (body : Json)
  | timeout
  | errorResponse (status : Nat) (body : Json)
  | transportError

/-- The timeout field of the axios config used by gateway.js V1
`proxyRequest` (lines 176-189): the config sets no `timeout` key, so no
bounded outbound timeout is configured. -/
def proxyRequestTimeoutMs : Option Nat := none

/-- The `timeout: 10000` of the `axiosInstance` used by gateway.js V2
`handleProxyRequest` (line 367). -/
def axiosInstanceTimeoutMs : Nat := 10000

/-- The 502 body of gateway.js V1 `proxyRequest`'s catch-all
(lines 197-203). -/
def backendErrorBodyV1 (path : String) : Json :=
  .obj [("success", .bool false),
        ("error", .str "Backend service unavailable"),
        ("code", .str "BACKEND_ERROR"),
        ("path", .str path)]

/-- The 504 body of gateway.js V2 `handleProxyRequest`'s timeout branch
(lines 573-578). -/
def backendTimeoutBody (path : String) : Json :=
  .obj [("success", .bool false),
        ("error", .str "Backend timeout"),
        ("code", .str "BACKEND_TIMEOUT"),
        ("path", .str path)]

/-- The 502 body of gateway.js V2 `handleProxyRequest`'s final catch
branch (lines 583-589), which also reports the elapsed duration. -/
def backendErrorBodyV2 (path : String) (duration : Nat) : Json :=
  .obj [("success", .bool false),
        ("error", .str "Backend service unavailable"),
        ("code", .str "BACKEND_ERROR"),
        ("path", .str path),
        ("duration", .num (Int.ofNat duration))]

/-- gateway.js V1 `proxyRequest` (lines 172-204): on any upstream
response — `validateStatus: () => true` — the response's status and body
are relayed unchanged (`res.status(response.status).json(response.data)`);
any thrown error, with no case analysis, yields 502 BACKEND_ERROR. -/
def proxyRequest (path : String) (u : UpstreamOutcome) : HttpResponse :=
  match u with
  | .responded s b => ⟨s, b⟩
  | .timeout => ⟨502, backendErrorBodyV1 path⟩
  | .errorResponse _ _ => ⟨502, backendErrorBodyV1 path⟩
  | .transportError => ⟨502, backendErrorBodyV1 path⟩

/-- gateway.js V2 `handleProxyRequest` (lines 533-592): an upstream
response is relayed unchanged; an `ECONNABORTED` error yields 504
BACKEND_TIMEOUT with the request path; an error carrying
`error.response` relays that response; anything else yields 502
BACKEND_ERROR with the path and elapsed duration. -/
def handleProxyRequest (path : String) (duration : Nat)
    (u : UpstreamOutcome) : HttpResponse :=
  match u with
  | .responded s b => ⟨s, b⟩
  | .timeout => ⟨504, backendTimeoutBody path⟩
  | .errorResponse s b => ⟨s, b⟩
  | .transportError => ⟨502, backendErrorBodyV2 path duration⟩

/-- Result of one protected route handler: the response sent to the
client, and whether the proxy forwarder was invoked at all. -/
structure HandlerResult where
  response : HttpResponse
  proxied : Bool

/-- gateway.js V1 `createProxyHandler(true)` (lines 154-169): run
`authenticate`; only when it calls `next()` is `proxyRequest` invoked;
when it responds, that response is the handler's response and no
upstream request is made.  echo (1).js lines 133-141 compose its
identical `authenticate` the same way. -/
def runProtectedV1 (verify : String → VerifyResult) (path : String)
    (authHeader : Option String) (u : UpstreamOutcome) : HandlerResult :=
  match authenticate verify path authHeader with
  | .proceed _ => ⟨proxyRequest path u, true⟩
  | .reject r => ⟨r, false⟩

/-- gateway.js V2 `createProxyHandler(true)` (lines 518-530): run
`authenticateV2`; only on `next()` is `handleProxyRequest` invoked. -/
def runProtectedV2 (verify : String → VerifyResult) (path : String)
    (authHeader : Option String) (duration : Nat)
    (u : UpstreamOutcome) : HandlerResult :=
  match authenticateV2 verify path authHeader with
  | .proceed _ => ⟨handleProxyRequest path duration u, true⟩
  | .reject r => ⟨r, false⟩

-- ====================
-- Health endpoints
-- ====================

/-- Outcome of the health endpoint's probe
`axios.get(PYTHON_BACKEND + '/health', {timeout})`: the upstream either
answered or the probe threw with an error message. -/
inductive BackendProbe where
  | ok
  | failed (msg : String)

/-- gateway.js V1 `app.get('/health')` (lines 235-258): the base
healthData object is built with `status: 'healthy'` and the probe only mutates
`backend`/`status`/`backendError`; the final send is always
`res.status(200)`. -/
def gatewayHealthHandler (ts : String) (wsClients : Nat)
    (nodeEnv : Option String) (probe : BackendProbe) : HttpResponse :=
  let env := match nodeEnv with
    | none => "development"
    | some e => if e.isEmpty then "development" else e
  match probe with
  | .ok =>
    ⟨200, .obj [("success", .bool true),
                ("service", .str "Echo Gateway"),
                ("status", .str "healthy"),
                ("timestamp", .str ts),
                ("websocket", .num (Int.ofNat wsClients)),
                ("environment", .str env),
                ("backend", .str "connected")]⟩
  | .failed m =>
    ⟨200, .obj [("success", .bool true),
                ("service", .str "Echo Gateway"),
                ("status", .str "degraded"),
                ("timestamp", .str ts),
                ("websocket", .num (Int.ofNat wsClients)),
                ("environment", .str env),
                ("backend", .str "disconnected"),
                ("backendError", .str m)]⟩

/-- echo (1).js `app.get('/health')` (lines 204-227): when the probe of
the upstream succeeds, `res.json({... status:'healthy',
backend:'connected' ...})` (status 200); when it throws, the handler
responds `res.status(503)` with `status:'degraded'` and `backend` set to
the upstream URL. -/
def echo1HealthHandler (ts : String) (wsClients : Nat)
    (nodeEnv : Option String) (pythonBackendUrl : String)
    (probe : BackendProbe) : HttpResponse :=
  let env := match nodeEnv with
    | none => "development"
    | some e => if e.isEmpty then "development" else e
  match probe with
  | .ok =>
    ⟨200, .obj [("success", .bool true),
                ("service", .str "Echo Gateway"),
                ("status", .str "healthy"),
                ("timestamp", .str ts),
                ("backend", .str "connected"),
                ("websocket", .num (Int.ofNat wsClients)),
                ("environment", .str env)]⟩
  | .failed _ =>
    ⟨503, .obj [("success", .bool false),
                ("service", .str "Echo Gateway"),
                ("status", .str "degraded"),
                ("error", .str "Backend unreachable"),
                ("backend", .str pythonBackendUrl)]⟩

-- ====================
-- WebSocket handlers and connection registry
-- ====================

/-- An inbound WebSocket payload after `JSON.parse`: either the parse
threw (`malformed`), or a message object destructured into the fields
the handlers read (`type`, `receiverId`, `content`); a field the object
does not carry is `none`.  (echo.js also destructures `chatId`, which is
never used.) -/
inductive WsInbound where
  | malformed
  | msg (type_ : Option String) (receiverId : Option JsValue)
        (content : Option Json)

/-- The `pong` reply frame of gateway.js (lines 130, 490-493). -/
def pongFrame (ts : String) : Json :=
  .obj [("type", .str "pong"), ("timestamp", .str ts)]

/-- The in-band error frame sent when `JSON.parse` throws
(gateway.js lines 133-136, echo.js lines 166-169). -/
def wsErrorFrame : Json :=
  .obj [("type", .str "error"), ("error", .str "Invalid message format")]

/-- gateway.js `ws.on('message')` (V1 lines 124-138, V2 lines 486-501):
the list of frames sent back on the session in response to one inbound
payload.  A parseable `ping` yields exactly one `pong` with a timestamp;
any other parseable message yields nothing; a malformed payload yields
the error frame. -/
def gatewayWsOnMessage (ts : String) (d : WsInbound) : List Json :=
  match d with
  | .malformed => [wsErrorFrame]
  | .msg t _ _ =>
    match t with
    | some s => if s == "ping" then [pongFrame ts] else []
    | none => []

/-- echo (1).js `wss.on('connection')` (lines 99-128) registers only a
`close` listener and no `message` listener at all: the session sends
nothing in response to any inbound payload. -/
def echo1WsOnMessage (_d : WsInbound) : List Json := []

/-- The `activeConnections` map, `userId-string -> transport handle`
(echo.js line 123, gateway.js lines 100, 461).  Modelled as an
association list whose entry order is abstracted; transport handles are
abstracted as `Nat`. -/
abbrev Registry := List (String × Nat)

/-- `activeConnections.get(key)`. -/
def regGet : Registry → String → Option Nat
  | [], _ => none
  | (k, v) :: r, key => if k == key then some v else regGet r key

/-- `activeConnections.set(key, ws)`: a JavaScript `Map.set` stores at
most one value per key, replacing any existing entry for `key`. -/
def regSet (r : Registry) (key : String) (v : Nat) : Registry :=
  (key, v) :: r.filter (fun e => e.1 != key)

/-- `activeConnections.delete(key)`. -/
def regDelete (r : Registry) (key : String) : Registry :=
  r.filter (fun e => e.1 != key)

/-- Number of registry entries under a given key. -/
def regKeyCount (r : Registry) (key : String) : Nat :=
  (r.filter (fun e => e.1 == key)).length

/-- The registry's keys are pairwise distinct — "at most one transport
handle per string-rendered id". -/
def regKeysNodup (r : Registry) : Prop :=
  (r.map Prod.fst).Nodup

/-- Registration on WebSocket connect:
`activeConnections.set(userId.toString(), ws)` (echo.js line 147,
gateway.js lines 121, 481, echo (1).js line 117). -/
def wsConnect (r : Registry) (userId : JsValue) (ws : Nat) : Registry :=
  regSet r userId.toStr ws

/-- Unregistration on WebSocket close:
`activeConnections.delete(userId.toString())` (echo.js line 175,
gateway.js lines 141, 504, echo (1).js line 121). -/
def wsClose (r : Registry) (userId : JsValue) : Registry :=
  regDelete r userId.toStr

/-- Receiver lookup for the private relay:
`activeConnections.get(receiverId.toString())` (echo.js line 194). -/
def relayLookup (r : Registry) (receiverId : JsValue) : Option Nat :=
  regGet r receiverId.toStr

/-- The relayed frame of echo.js lines 196-201:
`JSON.stringify({type:'message', senderId, content, timestamp})`.
`JSON.stringify` omits a field whose value is `undefined`. -/
def messageFrame (senderId : JsValue) (content : Option Json)
    (ts : String) : Json :=
  .obj ([("type", Json.str "message"), ("senderId", jsValueToJson senderId)]
        ++ (match content with | some c => [("content", c)] | none => [])
        ++ [("timestamp", Json.str ts)])

/-- An inbound HTTP request as express hands it to middleware:
`req.path` (which by construction never contains the query string), the
parsed query parameters, and the Authorization header. -/
structure Request where
  path : String
  query : List (String × String)
  authHeader : Option String

/-- Public-route classification of a whole request by gateway.js V1
(line 44: "Use req.path for exact path matching without query params"):
only `req.path` is consulted. -/
def isPublicReqV1 (r : Request) : Bool := isPublicV1 r.path

/-- Public-route classification of a whole request by gateway.js V2
(line 415): only `req.path` is consulted, after lowercasing. -/
def isPublicReqV2 (r : Request) : Bool := isPublicV2 r.path

/-- echo.js `handleChatMessage` (lines 186-207): the list of
`(transport handle, frame)` sends it performs.  Only a message with
`type === 'private'` and a truthy `receiverId` whose string key is
registered produces a send — exactly one, to that handle; every other
case (unregistered receiver included) sends nothing and raises no
error. -/
def handleChatMessage (reg : Registry) (senderId : JsValue) (ts : String)
    (type_ : Option String) (receiverId : Option JsValue)
    (content : Option Json) : List (Nat × Json) :=
  match type_, receiverId with
  | some t, some rid =>
    if t == "private" && rid.truthy then
      match regGet reg rid.toStr with
      | some w => [(w, messageFrame senderId content ts)]
      | none => []
    else []
  | _, _ => []

-- ====================
-- Helper lemmas
-- ====================

/-- A JavaScript `a || b || c` chain evaluates to the first truthy value
of the three, provided at least one of them is truthy. -/
theorem jsOr_chain_eq_firstTruthy (a b c : Option JsValue)
    (h : (jsTruthy a || jsTruthy b || jsTruthy c) = true) :
    jsOr a (jsOr b c) = firstTruthy [a, b, c] := by
  cases hta : jsTruthy a <;> cases htb : jsTruthy b <;>
    cases htc : jsTruthy c <;> simp_all [jsOr, firstTruthy]

/-- Filtering a key out and then filtering for that key leaves nothing. -/
theorem filter_ne_then_eq (r : Registry) (k : String) :
    (r.filter (fun e => e.1 != k)).filter (fun e => e.1 == k) = [] := by
  induction r with
  | nil => rfl
  | cons a r ih =>
    by_cases h : a.1 = k <;> simp [List.filter_cons, h, ih]

/-- `List.filter` preserves distinctness of the registry's keys. -/
theorem regKeysNodup_filter (r : Registry) (p : String × Nat → Bool)
    (h : regKeysNodup r) : regKeysNodup (r.filter p) :=
  List.Nodup.sublist (List.Sublist.map Prod.fst (List.filter_sublist r)) h

/-- After filtering key `k` out, `k` is no longer among the keys. -/
theorem not_mem_keys_filter_ne (r : Registry) (k : String) :
    k ∉ (r.filter (fun e => e.1 != k)).map Prod.fst := by
  intro hm
  rcases List.mem_map.mp hm with ⟨e, he, hfst⟩
  rcases List.mem_filter.mp he with ⟨_, hne⟩
  rw [hfst] at hne
  simp at hne

/-- `regSet` preserves distinctness of keys. -/
theorem regKeysNodup_set (r : Registry) (k : String) (v : Nat)
    (h : regKeysNodup r) : regKeysNodup (regSet r k v) := by
  unfold regKeysNodup regSet
  simp only [List.map_cons]
  exact List.nodup_cons.mpr ⟨not_mem_keys_filter_ne r k, regKeysNodup_filter r _ h⟩

/-- `regDelete` preserves distinctness of keys. -/
theorem regKeysNodup_delete (r : Registry) (k : String)
    (h : regKeysNodup r) : regKeysNodup (regDelete r k) :=
  regKeysNodup_filter r _ h

/-- Looking up the key just set finds the value just set. -/
theorem regGet_set_self (r : Registry) (k : String) (v : Nat) :
    regGet (regSet r k v) k = some v := by
  simp [regSet, regGet]

/-- After a set, exactly one entry lives under the key that was set. -/
theorem regKeyCount_set (r : Registry) (k : String) (v : Nat) :
    regKeyCount (regSet r k v) k = 1 := by
  simp [regKeyCount, regSet, List.filter_cons, filter_ne_then_eq]

/-- Deleting a key after setting it is the same as deleting it without
the set: the delete removes exactly what the set put under that key. -/
theorem regDelete_set (r : Registry) (k : String) (v : Nat) :
    regDelete (regSet r k v) k = regDelete r k := by
  unfold regDelete regSet
  induction r with
  | nil => simp [List.filter_cons]
  | cons a r ih =>
    by_cases h : a.1 = k <;> simp_all [List.filter_cons, h]

/-- Deleting one key leaves lookups of every other key unchanged. -/
theorem regGet_delete_ne (r : Registry) (k key : String) (h : key ≠ k) :
    regGet (regDelete r k) key = regGet r key := by
  induction r with
  | nil => rfl
  | cons a r ih =>
    unfold regDelete at *
    by_cases ha : a.1 = k
    · simp [List.filter_cons, ha, regGet, ih, Ne.symm h, h]
    · by_cases hk : a.1 = key <;>
        simp [List.filter_cons, ha, regGet, hk, ih, h]

-- ====================
-- Claim C1
-- ====================

/-- Claim C1 (confirmed): for every request the forwarders handle, when
the upstream returns a response — any status code `s` and body `b`
within the timeout window — both gateway.js forwarders (`proxyRequest`
and `handleProxyRequest`) respond to the client with exactly status `s`
and body `b`, unchanged, upstream error statuses included. -/
theorem c1_upstream_passthrough (path : String) (s : Nat) (b : Json)
    (duration : Nat) :
    proxyRequest path (.responded s b) = ⟨s, b⟩ ∧
    handleProxyRequest path duration (.responded s b) = ⟨s, b⟩ :=
  ⟨rfl, rfl⟩

-- ====================
-- Claim C2
-- ====================

/-- Claim C2 (confirmed): for every request to a protected (non-public)
path whose Authorization header is absent or does not start with
`"Bearer "`, both gateway variants (and echo (1).js, whose
`authenticate` is token-for-token the V1 middleware) respond 401 with
code NO_TOKEN, and the proxy forwarder is never invoked (`proxied =
false`). -/
theorem c2_no_token_rejection (verify : String → VerifyResult)
    (path : String) (authHeader : Option String) (u : UpstreamOutcome)
    (duration : Nat) (h1 : isPublicV1 path = false)
    (h2 : isPublicV2 path = false)
    (hb : badBearerHeader authHeader = true) :
    runProtectedV1 verify path authHeader u = ⟨noTokenResponse, false⟩ ∧
    runProtectedV2 verify path authHeader duration u = ⟨noTokenResponse, false⟩ := by
  cases authHeader with
  | none =>
    constructor <;>
      simp [runProtectedV1, runProtectedV2, authenticate, authenticateV2, h1, h2]
  | some h =>
    have hs : strStartsWith h "Bearer " = false := by
      simpa [badBearerHeader] using hb
    constructor <;>
      simp [runProtectedV1, runProtectedV2, authenticate, authenticateV2, h1, h2, hs]

/-- Concrete instance of `c2_no_token_rejection`: a request to
`/api/schools` with no Authorization header is rejected 401 NO_TOKEN by
both variants and never proxied. -/
theorem c2_no_token_rejection_witness :
    isPublicV1 "/api/schools" = false ∧
    isPublicV2 "/api/schools" = false ∧
    badBearerHeader none = true ∧
    (runProtectedV1 (fun _ => VerifyResult.invalid) "/api/schools" none
        (UpstreamOutcome.responded 200 Json.null) = ⟨noTokenResponse, false⟩ ∧
     runProtectedV2 (fun _ => VerifyResult.invalid) "/api/schools" none 0
        (UpstreamOutcome.responded 200 Json.null) = ⟨noTokenResponse, false⟩) :=
  ⟨rfl, rfl, rfl,
   c2_no_token_rejection (fun _ => VerifyResult.invalid) "/api/schools" none
     (UpstreamOutcome.responded 200 Json.null) 0 rfl rfl rfl⟩

-- ====================
-- Claim C3
-- ====================

/-- Claim C3 (counterexample): echo.js line 18 falls back to the
hardcoded default secret when `process.env.JWT_SECRET` is absent, and
the process starts anyway — it does not refuse to start. -/
theorem c3_default_secret_fallback :
    echoStartup none = StartupResult.started "echo-secret-key-change-in-production" ∧
    echoStartup none ≠ StartupResult.exited 1 :=
  ⟨rfl, by decide⟩

/-- Claim C3 (amended): in gateway.js (both variants) and echo (1).js an
absent or empty `JWT_SECRET` makes the process exit with code 1 at
startup, and a supplied non-empty secret is used exactly as given with
no default; echo.js, however, starts with the hardcoded default secret
`echo-secret-key-change-in-production` when the environment variable is
absent. -/
theorem c3_secret_startup_policy :
    gatewayStartup none = StartupResult.exited 1 ∧
    gatewayStartup (some "") = StartupResult.exited 1 ∧
    (∀ s : String, s.isEmpty = false →
       gatewayStartup (some s) = StartupResult.started s) ∧
    echoStartup none = StartupResult.started echoDefaultSecret := by
  refine ⟨rfl, rfl, ?_, rfl⟩
  intro s hs
  simp [gatewayStartup, hs]

/-- Concrete instance of `c3_secret_startup_policy`: supplying the
secret `"s3cret"` starts the gateway with exactly that secret. -/
theorem c3_secret_startup_policy_witness :
    "s3cret".isEmpty = false ∧
    gatewayStartup (some "s3cret") = StartupResult.started "s3cret" :=
  ⟨rfl, c3_secret_startup_policy.2.2.1 "s3cret" rfl⟩

-- ====================
-- Claim C4
-- ====================

/-- Claim C4 (counterexample): in gateway.js V2 (lines 434-455) a token
whose signature verifies but whose claims contain none of the recognized
user-identifier fields is NOT rejected: the middleware proceeds,
attaching a user whose id is undefined, instead of failing 401
INVALID_TOKEN. -/
theorem c4_missing_id_accepted :
    authenticateV2 (fun _ => VerifyResult.ok emptyTokenClaims) "/api/schools"
      (some "Bearer tkn") = AuthOutcome.proceed (some ⟨none, none, none, none⟩) :=
  rfl

/-- Claim C4 (amended): in gateway.js V1, a verified token with all of
`userId`, `id`, `user_id` falsy is rejected 401 INVALID_TOKEN, and when
at least one is truthy the identity's id is the first truthy field in
the priority order `userId`, `id`, `user_id`.  In gateway.js V2 no
missing-identifier check is performed: a verified token always proceeds;
when at least one field is truthy the id is the first truthy field in
V2's priority order `user_id`, `userId`, `id`, and when all are falsy
the middleware proceeds with the (falsy or undefined) value of
`decoded.id`. -/
theorem c4_identity_resolution (c : TokenClaims) (path : String)
    (hdr : String) (h1 : isPublicV1 path = false)
    (h2 : isPublicV2 path = false)
    (hb : strStartsWith hdr "Bearer " = true) :
    (jsTruthy c.userId = false → jsTruthy c.id = false →
       jsTruthy c.user_id = false →
       authenticate (fun _ => VerifyResult.ok c) path (some hdr)
         = AuthOutcome.reject ⟨401, invalidTokenFormatBody⟩) ∧
    ((jsTruthy c.userId || jsTruthy c.id || jsTruthy c.user_id) = true →
       authenticate (fun _ => VerifyResult.ok c) path (some hdr)
         = AuthOutcome.proceed (some ⟨firstTruthy [c.userId, c.id, c.user_id],
             c.email, c.role, c.schoolId⟩)) ∧
    ((jsTruthy c.user_id || jsTruthy c.userId || jsTruthy c.id) = true →
       authenticateV2 (fun _ => VerifyResult.ok c) path (some hdr)
         = AuthOutcome.proceed (some ⟨firstTruthy [c.user_id, c.userId, c.id],
             c.email, c.role, jsOr c.school_id c.schoolId⟩)) ∧
    (jsTruthy c.user_id = false → jsTruthy c.userId = false →
       jsTruthy c.id = false →
       authenticateV2 (fun _ => VerifyResult.ok c) path (some hdr)
         = AuthOutcome.proceed (some ⟨c.id, c.email, c.role,
             jsOr c.school_id c.schoolId⟩)) := by
  refine ⟨?_, ?_, ?_, ?_⟩
  · intro hu hi hui
    simp [authenticate, h1, hb, hu, hi, hui]
  · intro h
    have hguard : (!jsTruthy c.userId && !jsTruthy c.id && !jsTruthy c.user_id) = false := by
      cases hta : jsTruthy c.userId <;> cases htb : jsTruthy c.id <;>
        cases htc : jsTruthy c.user_id <;> simp_all
    simp [authenticate, h1, hb, hguard,
          jsOr_chain_eq_firstTruthy c.userId c.id c.user_id h]
  · intro h
    simp [authenticateV2, h2, hb,
          jsOr_chain_eq_firstTruthy c.user_id c.userId c.id h]
  · intro hu hi hui
    simp [authenticateV2, h2, hb, jsOr, hu, hi, hui]

/-- Concrete instance of `c4_identity_resolution`: a verified token with
`userId = "u1"` on the protected path `/api/schools` yields a V1
identity whose id is `"u1"`. -/
theorem c4_identity_resolution_witness :
    isPublicV1 "/api/schools" = false ∧
    isPublicV2 "/api/schools" = false ∧
    strStartsWith "Bearer tkn" "Bearer " = true ∧
    (jsTruthy (some (JsValue.str "u1")) || jsTruthy none || jsTruthy none) = true ∧
    authenticate (fun _ => VerifyResult.ok
        ⟨some (JsValue.str "u1"), none, none, none, none, none, none⟩)
        "/api/schools" (some "Bearer tkn")
      = AuthOutcome.proceed (some ⟨firstTruthy [some (JsValue.str "u1"), none, none],
          none, none, none⟩) :=
  ⟨rfl, rfl, rfl, rfl,
   (c4_identity_resolution
      ⟨some (JsValue.str "u1"), none, none, none, none, none, none⟩
      "/api/schools" "Bearer tkn" rfl rfl rfl).2.1 rfl⟩

-- ====================
-- Claim C5
-- ====================

/-- Claim C5 (counterexample): gateway.js V1's `proxyRequest` sets no
outbound timeout at all (no `timeout` key in its axios config), and a
timeout-class failure of the forwarded request is reported as 502 with
code BACKEND_ERROR — not as 504 BACKEND_TIMEOUT. -/
theorem c5_v1_timeout_misreported :
    proxyRequestTimeoutMs = none ∧
    proxyRequest "/api/x" UpstreamOutcome.timeout
      = ⟨502, backendErrorBodyV1 "/api/x"⟩ :=
  ⟨rfl, rfl⟩

/-- Claim C5 (amended): gateway.js V2's forwarder sets a bounded 10000 ms
outbound timeout, and every timed-out forwarded request is answered 504
with the structured body `{success:false, error, code:"BACKEND_TIMEOUT",
path}` carrying the request path; gateway.js V1's forwarder, however,
configures no outbound timeout and reports a timeout-class transport
failure as 502 BACKEND_ERROR. -/
theorem c5_timeout_policy (path : String) (duration : Nat) :
    axiosInstanceTimeoutMs = 10000 ∧
    handleProxyRequest path duration UpstreamOutcome.timeout
      = ⟨504, backendTimeoutBody path⟩ ∧
    proxyRequestTimeoutMs = none ∧
    proxyRequest path UpstreamOutcome.timeout
      = ⟨502, backendErrorBodyV1 path⟩ :=
  ⟨rfl, rfl, rfl, rfl⟩

-- ====================
-- Claim C6
-- ====================

/-- Claim C6 (counterexample): the echo (1).js health endpoint responds
with HTTP status 503 — not 200 — when the upstream probe fails, so the
gateway status does depend on upstream reachability there. -/
theorem c6_echo1_health_not_200 :
    (echo1HealthHandler "2026-10-11T00:00:00Z" 0 none
        "https://echo-backend.up.railway.app"
        (.failed "connect ECONNREFUSED")).status = 503 ∧
    (echo1HealthHandler "2026-10-11T00:00:00Z" 0 none
        "https://echo-backend.up.railway.app"
        (.failed "connect ECONNREFUSED")).status ≠ 200 :=
  ⟨rfl, by decide⟩

/-- Claim C6 (amended): the gateway.js health endpoint always responds
200 regardless of upstream reachability and reports reachability only in
the body (`status: "healthy"` with `backend: "connected"` when reachable,
`status: "degraded"` with `backend: "disconnected"` when not); the
echo (1).js variant instead responds 200 only when the upstream is
reachable and 503 when it is not. -/
theorem c6_gateway_health_always_200 (ts : String) (wsClients : Nat)
    (nodeEnv : Option String) (m : String) (pb : String) :
    (gatewayHealthHandler ts wsClients nodeEnv .ok).status = 200 ∧
    (gatewayHealthHandler ts wsClients nodeEnv (.failed m)).status = 200 ∧
    (gatewayHealthHandler ts wsClients nodeEnv .ok).body.getField "status"
      = some (.str "healthy") ∧
    (gatewayHealthHandler ts wsClients nodeEnv .ok).body.getField "backend"
      = some (.str "connected") ∧
    (gatewayHealthHandler ts wsClients nodeEnv (.failed m)).body.getField "status"
      = some (.str "degraded") ∧
    (gatewayHealthHandler ts wsClients nodeEnv (.failed m)).body.getField "backend"
      = some (.str "disconnected") ∧
    (echo1HealthHandler ts wsClients nodeEnv pb .ok).status = 200 ∧
    (echo1HealthHandler ts wsClients nodeEnv pb (.failed m)).status = 503 :=
  ⟨rfl, rfl, rfl, rfl, rfl, rfl, rfl, rfl⟩

-- ====================
-- Claim C7
-- ====================

/-- Claim C7 (counterexample): the gateway.js V1 public-route
classification is case-sensitive — `/health` is classified PUBLIC while
`/HEALTH`, differing only in letter case, is classified PROTECTED. -/
theorem c7_v1_case_sensitive :
    isPublicV1 "/health" = true ∧ isPublicV1 "/HEALTH" = false :=
  ⟨rfl, rfl⟩

/-- Claim C7 (amended): both variants classify independently of the
query string (only `req.path` is consulted); exact allow-list matching
with the documented `/health` subpath prefix rule and case
normalization hold in gateway.js V2 — two paths with the same
lowercasing classify identically — while gateway.js V1 matches the
allow-list exactly and case-sensitively. -/
theorem c7_classification_rules :
    (∀ (path : String) (q₁ q₂ : List (String × String))
       (h₁ h₂ : Option String),
       isPublicReqV1 ⟨path, q₁, h₁⟩ = isPublicReqV1 ⟨path, q₂, h₂⟩) ∧
    (∀ (path : String) (q₁ q₂ : List (String × String))
       (h₁ h₂ : Option String),
       isPublicReqV2 ⟨path, q₁, h₁⟩ = isPublicReqV2 ⟨path, q₂, h₂⟩) ∧
    (∀ p₁ p₂ : String, jsToLower p₁ = jsToLower p₂ →
       isPublicV2 p₁ = isPublicV2 p₂) ∧
    (∀ p : String, isPublicV2 p
       = (publicPathsV2.contains (jsToLower p)
          || strStartsWith (jsToLower p) "/health")) ∧
    (∀ p : String, isPublicV1 p = publicPathsV1.contains p) := by
  refine ⟨fun _ _ _ _ _ => rfl, fun _ _ _ _ _ => rfl, ?_,
          fun _ => rfl, fun _ => rfl⟩
  intro p₁ p₂ h
  simp [isPublicV2, h]

/-- Concrete instance of `c7_classification_rules`: `/Health` and
`/health` have the same lowercasing, hence the same V2 classification. -/
theorem c7_classification_rules_witness :
    jsToLower "/Health" = jsToLower "/health" ∧
    isPublicV2 "/Health" = isPublicV2 "/health" :=
  ⟨rfl, c7_classification_rules.2.2.1 "/Health" "/health" rfl⟩

-- ====================
-- Claim C8
-- ====================

/-- Claim C8 (counterexample): the echo (1).js WebSocket connection
handler registers no `message` listener at all, so a parseable `ping`
frame on an open session elicits no frame whatsoever — in particular not
exactly one `pong`. -/
theorem c8_echo1_ping_no_reply :
    echo1WsOnMessage (WsInbound.msg (some "ping") none none) = [] :=
  rfl

/-- Claim C8 (amended): on an open gateway.js WebSocket session (both
variants), a parseable frame of type `ping` makes the server send
exactly one reply frame — a `pong` carrying a timestamp — and nothing
else in response to it; the echo (1).js variant registers no message
listener and sends nothing in response to any inbound frame. -/
theorem c8_gateway_ping_pong (ts : String) (rid : Option JsValue)
    (content : Option Json) :
    gatewayWsOnMessage ts (WsInbound.msg (some "ping") rid content)
      = [pongFrame ts] ∧
    echo1WsOnMessage (WsInbound.msg (some "ping") rid content) = [] :=
  ⟨rfl, rfl⟩

-- ====================
-- Claim C9
-- ====================

/-- Claim C9 (confirmed): for every inbound `private`-type message with
a (truthy) `receiverId`, echo.js `handleChatMessage` sends exactly one
frame — carrying the sender id, the content, and a timestamp — to the
connection registered under the receiver's string key when one exists,
and sends nothing to anyone (and raises no error) when none is
registered. -/
theorem c9_private_relay (reg : Registry) (senderId rid : JsValue)
    (content : Json) (ts : String) (w : Nat) (ht : rid.truthy = true) :
    (regGet reg rid.toStr = some w →
       handleChatMessage reg senderId ts (some "private") (some rid)
           (some content)
         = [(w, messageFrame senderId (some content) ts)]) ∧
    (regGet reg rid.toStr = none →
       handleChatMessage reg senderId ts (some "private") (some rid)
           (some content) = []) := by
  constructor <;> intro hw <;> simp [handleChatMessage, ht, hw]

/-- Concrete instance of `c9_private_relay`: with `"7"` registered under
handle 42, a private message to receiver `"7"` is delivered as exactly
one frame to handle 42. -/
theorem c9_private_relay_witness :
    (JsValue.str "7").truthy = true ∧
    regGet [("7", 42)] (JsValue.str "7").toStr = some 42 ∧
    handleChatMessage [("7", 42)] (JsValue.num 1) "t0" (some "private")
        (some (JsValue.str "7")) (some Json.null)
      = [(42, messageFrame (JsValue.num 1) (some Json.null) "t0")] :=
  ⟨rfl, rfl,
   (c9_private_relay [("7", 42)] (JsValue.num 1) (JsValue.str "7")
      Json.null "t0" 42 rfl).1 rfl⟩

-- ====================
-- Claim C10
-- ====================

/-- Claim C10 (confirmed): every connection-registry operation keys the
map by `userId.toString()`: the numeric id 5 and the string id "5"
render to the same key; registering twice under the same rendered key
leaves the later handle as the sole entry for that key (exactly one
entry); register and close preserve key distinctness, so the registry
holds at most one transport handle per string-rendered id; and a
session's close removes exactly what its own registration created under
that key, leaving every other key's lookup unchanged. -/
theorem c10_registry_string_keys :
    ((JsValue.num 5).toStr = (JsValue.str "5").toStr) ∧
    (∀ (r : Registry) (a b : JsValue) (w₁ w₂ : Nat), a.toStr = b.toStr →
       relayLookup (wsConnect (wsConnect r a w₁) b w₂) a = some w₂) ∧
    (∀ (r : Registry) (a : JsValue) (w : Nat),
       regKeyCount (wsConnect r a w) a.toStr = 1) ∧
    (∀ (r : Registry) (a : JsValue) (w : Nat),
       regKeysNodup r → regKeysNodup (wsConnect r a w)) ∧
    (∀ (r : Registry) (a : JsValue),
       regKeysNodup r → regKeysNodup (wsClose r a)) ∧
    (∀ (r : Registry) (a : JsValue) (w : Nat),
       wsClose (wsConnect r a w) a = wsClose r a) ∧
    (∀ (r : Registry) (a : JsValue) (key : String), key ≠ a.toStr →
       regGet (wsClose r a) key = regGet r key) := by
  refine ⟨rfl, ?_, ?_, ?_, ?_, ?_, ?_⟩
  · intro r a b w₁ w₂ h
    unfold relayLookup wsConnect
    rw [h]
    exact regGet_set_self _ _ _
  · intro r a w
    exact regKeyCount_set r a.toStr w
  · intro r a w h
    exact regKeysNodup_set r a.toStr w h
  · intro r a h
    exact regKeysNodup_delete r a.toStr h
  · intro r a w
    exact regDelete_set r a.toStr w
  · intro r a key h
    exact regGet_delete_ne r a.toStr key h

/-- Concrete instance of `c10_registry_string_keys`: registering the
numeric id 5 and then the string id "5" leaves handle 2 as the sole
entry under key "5"; closing removes it; other keys are untouched. -/
theorem c10_registry_string_keys_witness :
    (JsValue.num 5).toStr = (JsValue.str "5").toStr ∧
    relayLookup (wsConnect (wsConnect [] (JsValue.num 5) 1)
        (JsValue.str "5") 2) (JsValue.num 5) = some 2 ∧
    regKeysNodup ([] : Registry) ∧
    regKeysNodup (wsConnect [] (JsValue.num 5) 1) ∧
    ("7" : String) ≠ (JsValue.num 5).toStr ∧
    regGet (wsClose [("5", 1), ("7", 9)] (JsValue.num 5)) "7"
      = regGet [("5", 1), ("7", 9)] "7" :=
  ⟨rfl,
   c10_registry_string_keys.2.1 [] (JsValue.num 5) (JsValue.str "5") 1 2 rfl,
   List.nodup_nil,
   c10_registry_string_keys.2.2.2.1 [] (JsValue.num 5) 1 List.nodup_nil,
   by decide,
   c10_registry_string_keys.2.2.2.2.2.2 [("5", 1), ("7", 9)]
     (JsValue.num 5) "7" (by decide)⟩

end Echo
